import Mathlib

/-!
Verification of the signal-scoring and aggregation core of the silver-signal
dashboard (a COMEX silver/gold early-signal monitoring system).

The TypeScript source is shallowly embedded: JavaScript numbers are modelled
as rationals (`ℚ`), timestamps as milliseconds-since-epoch rationals, nullable
values as `Option`, and each scorer's human-readable reason template as a
constructor of a per-scorer inductive type carrying exactly the numbers the
template interpolates.  Each definition mirrors one function of the source:

* `calculatePercentile`, `scoreSpeculatorNet`, `scoreCommercialShort`
  — `src/lib/api/cftc/scorer.ts`
* `scoreOpenInterest`, `scoreVaultInventory` — `src/lib/api/cme/scorer.ts`
* `scoreBackwardation` — `src/lib/api/spotprices/scorer.ts`
* `computeLeaseRate` — `src/lib/api/derived/calculator.ts`
* `getDisplayState` — `src/lib/utils/indicatorTransform.ts`
* `calculatePosture`, slam-risk checks — `src/app/page.tsx`
* `slamRiskActiveCount`, `slamRiskIsElevated`
  — `src/components/data-display/SlamRiskChecklist.tsx`
-/

/-- `SignalType` from `src/types/database.ts`: traffic-light verdict. -/
inductive SignalType
  | green
  | yellow
  | red
  | error
deriving DecidableEq, Repr

/-- `FetchStatus` from `src/types/database.ts`. -/
inductive FetchStatus
  | success
  | error
  | timeout
  | parseError
deriving DecidableEq, Repr

/-- `IndicatorDisplayState` from `src/types/indicator.ts`. -/
inductive IndicatorDisplayState
  | success
  | error
  | awaiting
  | stale
  | notApplicable
deriving DecidableEq, Repr

/-- JavaScript `haystack.includes(needle)` on strings: substring containment. -/
def stringIncludes (haystack needle : String) : Bool :=
  decide (List.IsInfix needle.toList haystack.toList)

/-- `calculatePercentile` from `src/lib/api/cftc/scorer.ts`:
counts the entries strictly below `value` and returns the count as a
percentage of the list length; an empty history returns the neutral 50. -/
def calculatePercentile (value : ℚ) (sortedValues : List ℚ) : ℚ :=
  if sortedValues.length = 0 then 50
  else ((sortedValues.countP fun v => decide (v < value) : ℚ) / sortedValues.length) * 100

/-- Result of a scorer: a signal plus a structured rendering of the reason
string (`{ signal, reason }` in the source); `ρ` is the scorer's reason type,
whose constructors stand for the scorer's template strings and carry exactly
the numbers that the template interpolates. -/
structure ScoreResult (ρ : Type) where
  signal : SignalType
  reason : ρ
deriving DecidableEq, Repr

/-- `ParsedCOTData` from `src/lib/api/cftc/types.ts` (the two fields the
scorers read; the other numeric fields are never consulted by the scoring
rules). -/
structure ParsedCOTData where
  speculatorNet : ℚ
  commercialNetShort : ℚ
deriving DecidableEq, Repr

/-- JavaScript `array.sort((a, b) => a - b)`: ascending numeric sort. -/
def sortAscending (l : List ℚ) : List ℚ :=
  l.insertionSort (fun a b => a ≤ b)

/-- Reason templates of `scoreSpeculatorNet` (`src/lib/api/cftc/scorer.ts`).
`criticalPercentile` is the "CRITICAL: ... at Nth percentile (...) - extremely
crowded" template, `criticalWowDrop` the "CRITICAL: ... dropped N% week-over-
week" template, `watchCrowded`/`watchWashedOut` the two WATCH templates and
`bullishHealthy` the GREEN template. -/
inductive SpecNetReason
  | criticalPercentile (percentile currentNet : ℚ)
  | criticalWowDrop (wowChange currentNet : ℚ)
  | watchCrowded (percentile currentNet : ℚ)
  | watchWashedOut (percentile currentNet : ℚ)
  | bullishHealthy (percentile currentNet : ℚ)
deriving DecidableEq, Repr

/-- Tail of `scoreSpeculatorNet`'s rule chain after the two RED rules:
yellow above the 60th or below the 20th percentile, green otherwise. -/
def scoreSpeculatorNetBands (percentile currentNet : ℚ) : ScoreResult SpecNetReason :=
  if 60 < percentile then ⟨.yellow, .watchCrowded percentile currentNet⟩
  else if percentile < 20 then ⟨.yellow, .watchWashedOut percentile currentNet⟩
  else ⟨.green, .bullishHealthy percentile currentNet⟩

/-- `scoreSpeculatorNet` from `src/lib/api/cftc/scorer.ts` (indicator #4):
percentile of the current speculator net within the sorted history, plus an
optional week-over-week percent change; RED above the 80th percentile or on a
>20% week-over-week drop, then the yellow/green bands. -/
def scoreSpeculatorNet (current : ParsedCOTData) (history : List ParsedCOTData)
    (priorWeek : Option ParsedCOTData) : ScoreResult SpecNetReason :=
  let currentNet := current.speculatorNet
  let historicalNets := sortAscending (history.map (·.speculatorNet))
  let percentile := calculatePercentile currentNet historicalNets
  let wowChange : Option ℚ := match priorWeek with
    | some p => some (((currentNet - p.speculatorNet) / |p.speculatorNet|) * 100)
    | none => none
  if 80 < percentile then ⟨.red, .criticalPercentile percentile currentNet⟩
  else match wowChange with
    | some w =>
      if w < -20 then ⟨.red, .criticalWowDrop w currentNet⟩
      else scoreSpeculatorNetBands percentile currentNet
    | none => scoreSpeculatorNetBands percentile currentNet

/-- Reason templates of `scoreCommercialShort` (`src/lib/api/cftc/scorer.ts`). -/
inductive CommShortReason
  | criticalPercentile (percentile currentShort : ℚ)
  | criticalShortBuild (wowIncrease : ℚ)
  | watchElevated (percentile currentShort : ℚ)
  | bullishLowRisk (percentile currentShort : ℚ)
deriving DecidableEq, Repr

/-- Tail of `scoreCommercialShort`'s rule chain after the two RED rules. -/
def scoreCommercialShortBands (percentile currentShort : ℚ) : ScoreResult CommShortReason :=
  if 60 < percentile then ⟨.yellow, .watchElevated percentile currentShort⟩
  else ⟨.green, .bullishLowRisk percentile currentShort⟩

/-- `scoreCommercialShort` from `src/lib/api/cftc/scorer.ts` (indicator #5):
RED above the 80th percentile or on a >10,000-contract week-over-week short
build, yellow above the 60th percentile, green otherwise. -/
def scoreCommercialShort (current : ParsedCOTData) (history : List ParsedCOTData)
    (priorWeek : Option ParsedCOTData) : ScoreResult CommShortReason :=
  let currentShort := current.commercialNetShort
  let historicalShorts := sortAscending (history.map (·.commercialNetShort))
  let percentile := calculatePercentile currentShort historicalShorts
  let wowIncrease : Option ℚ := match priorWeek with
    | some p => some (currentShort - p.commercialNetShort)
    | none => none
  if 80 < percentile then ⟨.red, .criticalPercentile percentile currentShort⟩
  else match wowIncrease with
    | some w =>
      if 10000 < w then ⟨.red, .criticalShortBuild w⟩
      else scoreCommercialShortBands percentile currentShort
    | none => scoreCommercialShortBands percentile currentShort

/-- `OpenInterestData` from `src/lib/api/cme/types.ts` (the field the scorer
reads). -/
structure OpenInterestData where
  totalOI : ℚ
deriving DecidableEq, Repr

/-- Reason templates of `scoreOpenInterest` (`src/lib/api/cme/scorer.ts`).
`watchInsufficientHistory` is the "WATCH: OI at N contracts - insufficient
history for trend" template returned when no prior observation exists. -/
inductive OIReason
  | watchInsufficientHistory (totalOI : ℚ)
  | criticalDrop (changePercent change : ℚ)
  | watchDown (changePercent change : ℚ)
  | bullishHealthy (totalOI changePercent : ℚ)
  | watchOther (totalOI changePercent : ℚ)
deriving DecidableEq, Repr

/-- `scoreOpenInterest` from `src/lib/api/cme/scorer.ts` (indicator #1):
yellow "insufficient history" without a prior, RED on a >10% weekly OI drop,
yellow on a 5-10% drop, green when stable or rising. -/
def scoreOpenInterest (current : OpenInterestData) (prior : Option OpenInterestData) :
    ScoreResult OIReason :=
  let totalOI := current.totalOI
  match prior with
  | none => ⟨.yellow, .watchInsufficientHistory totalOI⟩
  | some p =>
    let priorOI := p.totalOI
    let change := totalOI - priorOI
    let changePercent := if 0 < priorOI then (change / priorOI) * 100 else 0
    if changePercent < -10 then ⟨.red, .criticalDrop changePercent change⟩
    else if changePercent < -5 then ⟨.yellow, .watchDown changePercent change⟩
    else if 0 ≤ changePercent then ⟨.green, .bullishHealthy totalOI changePercent⟩
    else ⟨.yellow, .watchOther totalOI changePercent⟩

/-- `VaultStocksData` from `src/lib/api/cme/types.ts` (the numeric fields the
scorer reads; the per-depository rows are not consulted). -/
structure VaultStocksData where
  totalRegistered : ℚ
  totalEligible : ℚ
  totalOunces : ℚ
  registeredRatio : ℚ
deriving DecidableEq, Repr

/-- Reason templates of `scoreVaultInventory` (`src/lib/api/cme/scorer.ts`).
`criticalRatio` is the "CRITICAL: Registered at N% of total (...) - delivery
default risk" template; it carries the ratio percentage that the template
embeds. -/
inductive VaultReason
  | criticalRatio (ratioPercent registered : ℚ)
  | criticalDrawdown (weeklyChange : ℚ)
  | watchRatio (ratioPercent registered : ℚ)
  | watchDecline (weeklyChange registered : ℚ)
  | bullishHealthy (ratioPercent registered : ℚ)
deriving DecidableEq, Repr

/-- `scoreVaultInventory` from `src/lib/api/cme/scorer.ts` (indicator #2):
RED below a 25% registered ratio or on a >5M oz weekly drawdown, yellow below
40% or on a >1M oz weekly decline, green otherwise.  Without a prior
observation the weekly change defaults to 0. -/
def scoreVaultInventory (current : VaultStocksData) (prior : Option VaultStocksData) :
    ScoreResult VaultReason :=
  let registered := current.totalRegistered
  let ratio := current.registeredRatio
  let ratioPercent := ratio * 100
  let weeklyChange : ℚ := match prior with
    | some p => registered - p.totalRegistered
    | none => 0
  if ratioPercent < 25 then ⟨.red, .criticalRatio ratioPercent registered⟩
  else if weeklyChange < -5000000 then ⟨.red, .criticalDrawdown weeklyChange⟩
  else if ratioPercent < 40 then ⟨.yellow, .watchRatio ratioPercent registered⟩
  else if weeklyChange < -1000000 then ⟨.yellow, .watchDecline weeklyChange registered⟩
  else ⟨.green, .bullishHealthy ratioPercent registered⟩

/-- `SpotPriceData` from `src/lib/api/spotprices/types.ts` (the fields the
backwardation scorer destructures; `spread = spot - futures`, positive means
backwardation). -/
structure SpotPriceData where
  spotPrice : ℚ
  frontMonthFuturesPrice : ℚ
  spread : ℚ
  isBackwardation : Bool
deriving DecidableEq, Repr

/-- Reason templates of `scoreBackwardation` (`src/lib/api/spotprices/scorer.ts`),
one constructor per template, in source order: the "CRITICAL: Backwardation at
$..." template of the `spread > 0.5` rule, the "EXTREME: ... largest since
Hunt Brothers era" template of the `spread > 2.0` rule, the two WATCH
templates of the near-flat band, the normal-contango GREEN template, the
wide-contango WATCH template, and the fall-through GREEN template. -/
inductive BackwardationReason
  | criticalBackwardation (spread spotPrice futuresPrice : ℚ)
  | extremeBackwardation (spread : ℚ)
  | watchMildBackwardation (spread : ℚ)
  | watchNearFlat (spread : ℚ)
  | bullishNormalContango (spread : ℚ)
  | watchWideContango (spread : ℚ)
  | bullishNormalStructure (spotPrice futuresPrice : ℚ)
deriving DecidableEq, Repr

/-- `scoreBackwardation` from `src/lib/api/spotprices/scorer.ts` (indicator #7):
the if-chain over the signed spot-minus-futures spread, in source order. -/
def scoreBackwardation (current : SpotPriceData) : ScoreResult BackwardationReason :=
  let spread := current.spread
  if 1/2 < spread then
    ⟨.red, .criticalBackwardation spread current.spotPrice current.frontMonthFuturesPrice⟩
  else if 2 < spread then
    ⟨.red, .extremeBackwardation spread⟩
  else if -1/10 < spread ∧ spread ≤ 1/2 then
    if current.isBackwardation then ⟨.yellow, .watchMildBackwardation spread⟩
    else ⟨.yellow, .watchNearFlat spread⟩
  else if -1/2 ≤ spread ∧ spread ≤ -1/10 then
    ⟨.green, .bullishNormalContango spread⟩
  else if spread < -1/2 then
    ⟨.yellow, .watchWideContango spread⟩
  else
    ⟨.green, .bullishNormalStructure current.spotPrice current.frontMonthFuturesPrice⟩

/-- `LeaseRateData` from `src/lib/api/derived/types.ts` (the `reportDate`
field, set to the wall clock at computation time, is omitted). -/
structure LeaseRateData where
  impliedLeaseRate : ℚ
  forwardRate : ℚ
  sofrRate : ℚ
  spotPrice : ℚ
  futuresPrice : ℚ
  daysToExpiry : ℚ
deriving DecidableEq, Repr

/-- `computeLeaseRate` from `src/lib/api/derived/calculator.ts` (indicator #9):
forward rate `(futures/spot - 1) * (360/days) * 100` over clamped inputs, and
implied lease rate `SOFR - forward`, floored at 0.  The source gives
`sofrRate` the default value 4.3; here the caller always passes it. -/
def computeLeaseRate (spotPrice futuresPrice daysToExpiry sofrRate : ℚ) : LeaseRateData :=
  let safeDays := max daysToExpiry 1
  let safeSpot := max spotPrice (1/100)
  let safeFutures := max futuresPrice (1/100)
  let forwardRate := ((safeFutures / safeSpot) - 1) * (360 / safeDays) * 100
  let impliedLeaseRate := sofrRate - forwardRate
  { impliedLeaseRate := max impliedLeaseRate 0
    forwardRate := forwardRate
    sofrRate := sofrRate
    spotPrice := spotPrice
    futuresPrice := futuresPrice
    daysToExpiry := daysToExpiry }

/-- `SILVER_DELIVERY_MONTHS` check from `src/lib/api/cme/types.ts`
(`isDeliveryMonth`): months are 0-indexed as in JavaScript, delivery months
are Mar, May, Jul, Sep, Dec. -/
def isDeliveryMonth (month : ℕ) : Bool :=
  decide (month ∈ [2, 4, 6, 8, 11])

/-- `IndicatorSnapshot` from `src/types/database.ts`, restricted to the fields
the display-state resolver reads; `fetched_at` is a millisecond timestamp. -/
structure IndicatorSnapshot where
  fetch_status : FetchStatus
  fetched_at : ℚ
deriving DecidableEq, Repr

/-- `IndicatorMetadata` from `src/types/database.ts`, restricted to the field
the display-state resolver reads. -/
structure IndicatorMetadata where
  update_frequency : String
deriving DecidableEq, Repr

/-- `getDisplayState` from `src/lib/utils/indicatorTransform.ts`: the
display-state resolver.  The wall-clock read `new Date()` is passed in
explicitly as `now` (milliseconds). -/
def getDisplayState (now : ℚ) (snapshot : Option IndicatorSnapshot)
    (metadata : IndicatorMetadata) : IndicatorDisplayState :=
  match snapshot with
  | none => .awaiting
  | some s =>
    if s.fetch_status ≠ .success then .error
    else
      let hoursSinceFetch := (now - s.fetched_at) / (1000 * 60 * 60)
      if stringIncludes metadata.update_frequency "Weekly" = true ∧ 336 < hoursSinceFetch then
        .stale
      else if stringIncludes metadata.update_frequency "Daily" = true ∧ 48 < hoursSinceFetch then
        .stale
      else .success

/-- `IndicatorCardData` from `src/types/indicator.ts`, restricted to the
fields the posture synthesizer reads. -/
structure IndicatorCardData where
  indicatorId : ℕ
  displayState : IndicatorDisplayState
  signal : Option SignalType
deriving DecidableEq, Repr

/-- The posture values of `calculatePosture` in `src/app/page.tsx`. -/
inductive Posture
  | BUY
  | SELL
  | CAUTION
  | NEUTRAL
  | INSUFFICIENT_DATA
deriving DecidableEq, Repr

/-- The `{ posture, reason, count }` object returned by `calculatePosture`. -/
structure PostureResult where
  posture : Posture
  reason : String
  total : ℕ
  available : ℕ
deriving DecidableEq, Repr

/-- `calculatePosture` from `src/app/page.tsx`: counts red and green signals
among the cards in `success` display state and synthesizes the posture, with
the tally counts interpolated into the reason strings. -/
def calculatePosture (cards : List IndicatorCardData) : PostureResult :=
  let availableCards := cards.filter fun c => decide (c.displayState = .success)
  let redCount := (availableCards.filter fun c => decide (c.signal = some .red)).length
  let greenCount := (availableCards.filter fun c => decide (c.signal = some .green)).length
  if availableCards.length < 8 then
    { posture := .INSUFFICIENT_DATA
      reason := "Only " ++ toString availableCards.length ++
        " of 12 indicators available. Need at least 8 for confident posture."
      total := 12
      available := availableCards.length }
  else if 4 ≤ redCount then
    { posture := .SELL
      reason := toString redCount ++ " indicators showing critical signals. Elevated risk."
      total := 12
      available := availableCards.length }
  else if 7 ≤ greenCount ∧ redCount = 0 then
    { posture := .BUY
      reason := toString greenCount ++ " indicators bullish with no critical signals."
      total := 12
      available := availableCards.length }
  else if 3 ≤ redCount ∨ (0 < redCount ∧ greenCount < 5) then
    { posture := .CAUTION
      reason := "Mixed signals: " ++ toString greenCount ++ " bullish, " ++
        toString redCount ++ " critical."
      total := 12
      available := availableCards.length }
  else
    { posture := .NEUTRAL
      reason := toString greenCount ++ " bullish, " ++ toString redCount ++
        " critical. No strong signal."
      total := 12
      available := availableCards.length }

/-- `SlamRiskItem` from `src/types/indicator.ts`. -/
structure SlamRiskItem where
  id : String
  label : String
  active : Bool
  reason : Option String
deriving DecidableEq, Repr

/-- `activeCount` computed by the `SlamRiskChecklist` component
(`src/components/data-display/SlamRiskChecklist.tsx`):
`items.filter((i) => i.active).length`. -/
def slamRiskActiveCount (items : List SlamRiskItem) : ℕ :=
  (items.filter fun i => i.active).length

/-- `isElevated` computed by the `SlamRiskChecklist` component:
`activeCount >= 3`. -/
def slamRiskIsElevated (items : List SlamRiskItem) : Bool :=
  decide (3 ≤ slamRiskActiveCount items)

/-- C5: for every value `v` and history `H`, the percentile engine returns 100
times the fraction of elements of `H` strictly less than `v` when `H` is
non-empty, returns exactly 50 when `H` is empty, and its result depends only
on the multiset of `H` (it is invariant under permutation of the history). -/
theorem calculatePercentile_multiset_spec (v : ℚ) (H H' : List ℚ) (hp : H.Perm H') :
    calculatePercentile v H = calculatePercentile v H' ∧
    (H = [] → calculatePercentile v H = 50) ∧
    (H ≠ [] →
      calculatePercentile v H = 100 * ((H.filter fun x => decide (x < v)).length / H.length : ℚ)) := by
  refine ⟨?_, ?_, ?_⟩
  · unfold calculatePercentile
    rw [hp.length_eq, hp.countP_eq]
  · intro h
    subst h
    simp [calculatePercentile]
  · intro h
    have hlen : H.length ≠ 0 := by simpa using h
    unfold calculatePercentile
    rw [if_neg hlen, List.countP_eq_length_filter]
    ring

/-- Witness for C5 at a concrete permuted pair of histories. -/
theorem calculatePercentile_multiset_spec_witness :
    calculatePercentile 5 [1, 7, 3] = calculatePercentile 5 [3, 1, 7] ∧
    (([1, 7, 3] : List ℚ) = [] → calculatePercentile 5 [1, 7, 3] = 50) ∧
    (([1, 7, 3] : List ℚ) ≠ [] →
      calculatePercentile 5 [1, 7, 3] =
        100 * ((([1, 7, 3] : List ℚ).filter fun x => decide (x < 5)).length / ([1, 7, 3] : List ℚ).length : ℚ)) :=
  calculatePercentile_multiset_spec 5 [1, 7, 3] [3, 1, 7] (by decide)

/-- C6: for every history `H` and values `v ≤ v'`, the percentile engine
satisfies `0 ≤ percentile v H ≤ percentile v' H ≤ 100`: the result is always
within `[0, 100]` and is monotone non-decreasing in the value. -/
theorem calculatePercentile_bounds_mono (v v' : ℚ) (H : List ℚ) (hvv : v ≤ v') :
    0 ≤ calculatePercentile v H ∧
    calculatePercentile v H ≤ calculatePercentile v' H ∧
    calculatePercentile v' H ≤ 100 := by
  unfold calculatePercentile
  by_cases h : H.length = 0
  · simp only [h, if_pos]
    norm_num
  · have hlen : (0 : ℚ) < H.length := by
      exact_mod_cast Nat.pos_of_ne_zero h
    rw [if_neg h, if_neg h]
    refine ⟨by positivity, ?_, ?_⟩
    · have hcount : (H.countP fun x => decide (x < v)) ≤ H.countP fun x => decide (x < v') := by
        apply List.countP_mono_left
        intro x _ hx
        simp only [decide_eq_true_eq] at hx ⊢
        exact lt_of_lt_of_le hx hvv
      have : ((H.countP fun x => decide (x < v) : ℕ) : ℚ) ≤ (H.countP fun x => decide (x < v') : ℚ) := by
        exact_mod_cast hcount
      gcongr
    · have hcount : (H.countP fun x => decide (x < v')) ≤ H.length := List.countP_le_length _
      have hc : ((H.countP fun x => decide (x < v') : ℕ) : ℚ) ≤ (H.length : ℚ) := by
        exact_mod_cast hcount
      have hdiv : ((H.countP fun x => decide (x < v') : ℕ) : ℚ) / H.length ≤ 1 :=
        (div_le_one hlen).mpr hc
      calc ((H.countP fun x => decide (x < v') : ℕ) : ℚ) / H.length * 100
          ≤ 1 * 100 := by gcongr
        _ = 100 := by norm_num

/-- Witness for C6 at concrete values and history. -/
theorem calculatePercentile_bounds_mono_witness :
    0 ≤ calculatePercentile 2 [0, 1, 3] ∧
    calculatePercentile 2 [0, 1, 3] ≤ calculatePercentile 4 [0, 1, 3] ∧
    calculatePercentile 4 [0, 1, 3] ≤ 100 :=
  calculatePercentile_bounds_mono 2 4 [0, 1, 3] (by norm_num)

/-- C4, counterexample: with a null prior week the speculator-net scorer does
not return a yellow "insufficient history" signal — at speculator net 5 with
history {0, 10} (50th percentile) it scores green from the data it has. -/
theorem scoreSpeculatorNet_nullPrior_cex :
    (scoreSpeculatorNet ⟨5, 0⟩ [⟨0, 0⟩, ⟨10, 0⟩] none).signal = SignalType.green ∧
    SignalType.green ≠ SignalType.yellow := by
  constructor
  · norm_num [scoreSpeculatorNet, scoreSpeculatorNetBands, sortAscending,
      List.insertionSort, List.orderedInsert, calculatePercentile,
      List.countP_cons, List.countP_nil]
  · decide

/-- C4, amended: with a null prior the scorers do not throw; the open-interest
scorer returns a yellow insufficient-history signal, while the percentile
scorers (speculator net, commercial short) skip their week-over-week rule
(that reason template can never appear) and score from the percentile alone
(red exactly when it exceeds 80). -/
theorem nullPrior_scoring_spec (cot : ParsedCOTData) (hist : List ParsedCOTData)
    (oi : OpenInterestData) :
    scoreOpenInterest oi none = ⟨.yellow, .watchInsufficientHistory oi.totalOI⟩ ∧
    (∀ w n, (scoreSpeculatorNet cot hist none).reason ≠ .criticalWowDrop w n) ∧
    (∀ w, (scoreCommercialShort cot hist none).reason ≠ .criticalShortBuild w) ∧
    ((scoreSpeculatorNet cot hist none).signal = .red ↔
      80 < calculatePercentile cot.speculatorNet (sortAscending (hist.map (·.speculatorNet)))) ∧
    ((scoreCommercialShort cot hist none).signal = .red ↔
      80 < calculatePercentile cot.commercialNetShort (sortAscending (hist.map (·.commercialNetShort)))) := by
  refine ⟨rfl, ?_, ?_, ?_, ?_⟩
  · intro w n
    simp only [scoreSpeculatorNet, scoreSpeculatorNetBands]
    split_ifs <;> simp
  · intro w
    simp only [scoreCommercialShort, scoreCommercialShortBands]
    split_ifs <;> simp
  · simp only [scoreSpeculatorNet, scoreSpeculatorNetBands]
    split_ifs with h1 h2 h3 <;> simp_all
  · simp only [scoreCommercialShort, scoreCommercialShortBands]
    split_ifs with h1 h2 <;> simp_all

/-- Witness for C4's amended theorem at concrete inputs. -/
theorem nullPrior_scoring_spec_witness :
    scoreOpenInterest ⟨150000⟩ none = ⟨.yellow, .watchInsufficientHistory 150000⟩ ∧
    (scoreSpeculatorNet ⟨5, 0⟩ [⟨0, 0⟩, ⟨10, 0⟩] none).reason ≠
      SpecNetReason.criticalWowDrop (-30) 5 ∧
    ((scoreSpeculatorNet ⟨5, 0⟩ [⟨0, 0⟩, ⟨10, 0⟩] none).signal = .red ↔
      80 < calculatePercentile (5 : ℚ)
        (sortAscending (([⟨0, 0⟩, ⟨10, 0⟩] : List ParsedCOTData).map (·.speculatorNet)))) :=
  ⟨(nullPrior_scoring_spec ⟨5, 0⟩ [⟨0, 0⟩, ⟨10, 0⟩] ⟨150000⟩).1,
   (nullPrior_scoring_spec ⟨5, 0⟩ [⟨0, 0⟩, ⟨10, 0⟩] ⟨150000⟩).2.1 (-30) 5,
   (nullPrior_scoring_spec ⟨5, 0⟩ [⟨0, 0⟩, ⟨10, 0⟩] ⟨150000⟩).2.2.2.1⟩

/-- C7: for every vault-inventory observation whose registered ratio is below
25% and whose prior observation is null, the vault-inventory scorer returns
red from the ratio band alone (the rule fires without a prior value), and the
reason is the CRITICAL template carrying the ratio percentage. -/
theorem scoreVaultInventory_ratio_band (cur : VaultStocksData)
    (h : cur.registeredRatio * 100 < 25) :
    scoreVaultInventory cur none =
      ⟨.red, .criticalRatio (cur.registeredRatio * 100) cur.totalRegistered⟩ := by
  simp only [scoreVaultInventory]
  rw [if_pos h]

/-- Witness for C7 at a registered ratio of 22%. -/
theorem scoreVaultInventory_ratio_band_witness :
    (22 / 100 : ℚ) * 100 < 25 ∧
    scoreVaultInventory ⟨66000000, 234000000, 300000000, 22 / 100⟩ none =
      ⟨.red, .criticalRatio ((22 / 100 : ℚ) * 100) 66000000⟩ :=
  ⟨by norm_num, scoreVaultInventory_ratio_band ⟨66000000, 234000000, 300000000, 22 / 100⟩ (by norm_num)⟩

/-- C9: for every spread greater than 2.0, the backwardation scorer returns
the red CRITICAL outcome of the `spread > 0.5` rule, and the subsequent
EXTREME branch guarded by `spread > 2.0` is unreachable for all inputs,
because the earlier, broader rule always matches first. -/
theorem scoreBackwardation_extreme_unreachable (cur : SpotPriceData) :
    (2 < cur.spread →
      scoreBackwardation cur =
        ⟨.red, .criticalBackwardation cur.spread cur.spotPrice cur.frontMonthFuturesPrice⟩) ∧
    ∀ s, (scoreBackwardation cur).reason ≠ .extremeBackwardation s := by
  constructor
  · intro h
    have h05 : (1/2 : ℚ) < cur.spread := lt_trans (by norm_num) h
    simp only [scoreBackwardation]
    rw [if_pos h05]
  · intro s
    simp only [scoreBackwardation]
    split_ifs with h1 h2 <;> try simp
    exact absurd (lt_trans (by norm_num) h2) h1

/-- Witness for C9 at a concrete spread of $3 (greater than $2). -/
theorem scoreBackwardation_extreme_unreachable_witness :
    (2 : ℚ) < 3 ∧
    scoreBackwardation ⟨30, 27, 3, true⟩ = ⟨.red, .criticalBackwardation 3 30 27⟩ ∧
    (scoreBackwardation ⟨30, 27, 3, true⟩).reason ≠ .extremeBackwardation 3 :=
  ⟨by norm_num,
   (scoreBackwardation_extreme_unreachable ⟨30, 27, 3, true⟩).1 (by norm_num),
   (scoreBackwardation_extreme_unreachable ⟨30, 27, 3, true⟩).2 3⟩

/-- C10: for all numeric inputs, `computeLeaseRate` divides only by the
clamped divisors — the spot price is clamped to at least 0.01 and the days to
expiry to at least 1, so both divisors are positive — and the returned
`impliedLeaseRate` is always at least 0 (floored at zero even when SOFR minus
the forward rate is negative). -/
theorem computeLeaseRate_safe (spotPrice futuresPrice daysToExpiry sofrRate : ℚ) :
    0 < max spotPrice (1/100) ∧ (1/100 : ℚ) ≤ max spotPrice (1/100) ∧
    0 < max daysToExpiry 1 ∧ (1 : ℚ) ≤ max daysToExpiry 1 ∧
    0 ≤ (computeLeaseRate spotPrice futuresPrice daysToExpiry sofrRate).impliedLeaseRate := by
  refine ⟨?_, le_max_right _ _, ?_, le_max_right _ _, ?_⟩
  · exact lt_of_lt_of_le (by norm_num) (le_max_right _ _)
  · exact lt_of_lt_of_le (by norm_num) (le_max_right _ _)
  · exact le_max_right _ _

/-- C3, counterexample: the display-state resolver has no not-applicable step.
April (0-indexed month 3) is outside the silver delivery months, yet a fresh,
successful delivery-activity snapshot (fetched one hour ago) resolves to
`success`, not `not_applicable`. -/
theorem getDisplayState_notApplicable_cex :
    isDeliveryMonth 3 = false ∧
    getDisplayState 3600000 (some ⟨.success, 0⟩)
      ⟨"Daily during delivery months (Mar, May, Jul, Sep, Dec)"⟩ = .success ∧
    IndicatorDisplayState.success ≠ .notApplicable := by
  refine ⟨by decide, ?_, by decide⟩
  have hW : stringIncludes "Daily during delivery months (Mar, May, Jul, Sep, Dec)"
      "Weekly" = false := by decide
  have hD : stringIncludes "Daily during delivery months (Mar, May, Jul, Sep, Dec)"
      "Daily" = true := by decide
  norm_num [getDisplayState, hW, hD]

/-- C3, amended: the display-state resolver evaluates in this order: no
observation yields `awaiting`; fetch status other than success yields `error`;
elapsed hours since `fetchedAt` exceeding 336 for a weekly cadence or 48 for a
daily cadence yields `stale`; otherwise it yields `success`.  It never
returns `not_applicable` (there is no not-applicable step; the delivery
scorer's not-applicable case is a green signal, not a display state). -/
theorem getDisplayState_spec (now : ℚ) (s : IndicatorSnapshot) (m : IndicatorMetadata) :
    (∀ os, getDisplayState now os m ≠ .notApplicable) ∧
    getDisplayState now none m = .awaiting ∧
    (s.fetch_status ≠ .success → getDisplayState now (some s) m = .error) ∧
    (s.fetch_status = .success →
      ((getDisplayState now (some s) m = .stale ↔
        (stringIncludes m.update_frequency "Weekly" = true ∧
          336 < (now - s.fetched_at) / (1000 * 60 * 60)) ∨
        (stringIncludes m.update_frequency "Daily" = true ∧
          48 < (now - s.fetched_at) / (1000 * 60 * 60))) ∧
       (getDisplayState now (some s) m = .success ↔
        ¬((stringIncludes m.update_frequency "Weekly" = true ∧
            336 < (now - s.fetched_at) / (1000 * 60 * 60)) ∨
          (stringIncludes m.update_frequency "Daily" = true ∧
            48 < (now - s.fetched_at) / (1000 * 60 * 60)))))) := by
  refine ⟨?_, rfl, ?_, ?_⟩
  · intro os
    match os with
    | none => simp [getDisplayState]
    | some t =>
      simp only [getDisplayState]
      split_ifs <;> simp
  · intro h
    simp only [getDisplayState]
    rw [if_pos h]
  · intro h
    have hne : ¬(s.fetch_status ≠ FetchStatus.success) := by simp [h]
    constructor
    · simp only [getDisplayState]
      rw [if_neg hne]
      split_ifs with h1 h2 <;> simp_all
    · simp only [getDisplayState]
      rw [if_neg hne]
      split_ifs with h1 h2 <;> simp_all

/-- Witness for C3's amended theorem: a weekly-cadence snapshot fetched 337
hours ago resolves to `stale`, a missing snapshot to `awaiting`, a timed-out
fetch to `error`, and no input resolves to `not_applicable`. -/
theorem getDisplayState_spec_witness :
    getDisplayState 1213200000 none ⟨"Weekly, Fridays at 3:30 PM ET (3-day lag)"⟩ = .awaiting ∧
    getDisplayState 1213200000 (some ⟨.timeout, 0⟩)
      ⟨"Weekly, Fridays at 3:30 PM ET (3-day lag)"⟩ = .error ∧
    getDisplayState 1213200000 (some ⟨.success, 0⟩)
      ⟨"Weekly, Fridays at 3:30 PM ET (3-day lag)"⟩ = .stale ∧
    getDisplayState 1213200000 (some ⟨.success, 0⟩)
      ⟨"Weekly, Fridays at 3:30 PM ET (3-day lag)"⟩ ≠ .notApplicable := by
  have h := getDisplayState_spec 1213200000 (⟨.timeout, 0⟩ : IndicatorSnapshot)
    ⟨"Weekly, Fridays at 3:30 PM ET (3-day lag)"⟩
  have h' := getDisplayState_spec 1213200000 (⟨.success, 0⟩ : IndicatorSnapshot)
    ⟨"Weekly, Fridays at 3:30 PM ET (3-day lag)"⟩
  refine ⟨h.2.1, h.2.2.1 (by decide), ?_, h'.1 _⟩
  exact ((h'.2.2.2 rfl).1).mpr (Or.inl ⟨by decide, by norm_num⟩)

/-- Concrete card set for the posture override claim: all 12 indicators in
`success` display state, the margin indicator (id 6) individually red, the
other eleven green. -/
def overrideRedCards : List IndicatorCardData :=
  [⟨1, .success, some .green⟩, ⟨2, .success, some .green⟩, ⟨3, .success, some .green⟩,
   ⟨4, .success, some .green⟩, ⟨5, .success, some .green⟩, ⟨6, .success, some .red⟩,
   ⟨7, .success, some .green⟩, ⟨8, .success, some .green⟩, ⟨9, .success, some .green⟩,
   ⟨10, .success, some .green⟩, ⟨11, .success, some .green⟩, ⟨12, .success, some .green⟩]

/-- C1, counterexample: 12 cards all available, the margin indicator (id 6)
individually red, tallies 11 green / 1 red. The posture synthesizer returns
NEUTRAL, not SELL: it has no individual-indicator override rule. -/
theorem calculatePosture_override_cex :
    overrideRedCards.length = 12 ∧
    (overrideRedCards.filter fun c => decide (c.displayState = .success)).length = 12 ∧
    (∃ c ∈ overrideRedCards, c.indicatorId = 6 ∧ c.displayState = .success ∧
      c.signal = some .red) ∧
    (calculatePosture overrideRedCards).posture = .NEUTRAL ∧
    Posture.NEUTRAL ≠ .SELL := by decide

/-- C1, amended: the posture synthesizer has no override rule — a red margin
(id 6) or delivery-pressure-ratio (id 11) indicator influences the posture
only through the red tally.  With at least 8 indicators available, such a red
override candidate present, fewer than 3 reds, and at least 5 greens, the
synthesizer returns NEUTRAL (never SELL). -/
theorem calculatePosture_no_override (cards : List IndicatorCardData)
    (hov : ∃ c ∈ cards, (c.indicatorId = 6 ∨ c.indicatorId = 11) ∧
      c.displayState = .success ∧ c.signal = some .red)
    (hav : 8 ≤ (cards.filter fun c => decide (c.displayState = .success)).length)
    (hred : ((cards.filter fun c => decide (c.displayState = .success)).filter
      fun c => decide (c.signal = some .red)).length < 3)
    (hgreen : 5 ≤ ((cards.filter fun c => decide (c.displayState = .success)).filter
      fun c => decide (c.signal = some .green)).length) :
    (calculatePosture cards).posture = .NEUTRAL := by
  obtain ⟨c, hc, _hid, hds, hsig⟩ := hov
  have hcA : c ∈ cards.filter fun c => decide (c.displayState = .success) :=
    List.mem_filter.mpr ⟨hc, by simp [hds]⟩
  have hcR : c ∈ (cards.filter fun c => decide (c.displayState = .success)).filter
      fun c => decide (c.signal = some .red) :=
    List.mem_filter.mpr ⟨hcA, by simp [hsig]⟩
  have hpos : 0 < ((cards.filter fun c => decide (c.displayState = .success)).filter
      fun c => decide (c.signal = some .red)).length :=
    List.length_pos_of_mem hcR
  simp only [calculatePosture]
  split_ifs with h1 h2 h3 h4
  · omega
  · omega
  · exact absurd h3.2 (by omega)
  · rcases h4 with h | ⟨_, h4b⟩
    · omega
    · omega
  · rfl

/-- Witness for C1's amended theorem at the concrete card set. -/
theorem calculatePosture_no_override_witness :
    (calculatePosture overrideRedCards).posture = .NEUTRAL :=
  calculatePosture_no_override overrideRedCards
    ⟨⟨6, .success, some .red⟩, by decide, Or.inl rfl, rfl, rfl⟩
    (by decide) (by decide) (by decide)

/-- C2: whenever fewer than 8 of the cards are in `success` display state, the
posture synthesizer returns INSUFFICIENT_DATA — regardless of the signals of
the available indicators — with the available count embedded in the reason
string. -/
theorem calculatePosture_insufficient (cards : List IndicatorCardData)
    (h : (cards.filter fun c => decide (c.displayState = .success)).length < 8) :
    (calculatePosture cards).posture = .INSUFFICIENT_DATA ∧
    (calculatePosture cards).reason =
      "Only " ++ toString (cards.filter fun c => decide (c.displayState = .success)).length ++
        " of 12 indicators available. Need at least 8 for confident posture." := by
  constructor
  · simp only [calculatePosture]
    rw [if_pos h]
  · simp only [calculatePosture]
    rw [if_pos h]

/-- Concrete card set for the insufficient-data claim: only 3 of 12 cards
available, and all three of them red. -/
def threeRedCards : List IndicatorCardData :=
  [⟨1, .success, some .red⟩, ⟨2, .success, some .red⟩, ⟨3, .success, some .red⟩,
   ⟨4, .awaiting, none⟩, ⟨5, .awaiting, none⟩, ⟨6, .awaiting, none⟩,
   ⟨7, .awaiting, none⟩, ⟨8, .awaiting, none⟩, ⟨9, .awaiting, none⟩,
   ⟨10, .awaiting, none⟩, ⟨11, .awaiting, none⟩, ⟨12, .awaiting, none⟩]

/-- Witness for C2: 3 available and all red still yields INSUFFICIENT_DATA
(not SELL), with "3" embedded in the reason. -/
theorem calculatePosture_insufficient_witness :
    (calculatePosture threeRedCards).posture = .INSUFFICIENT_DATA ∧
    (calculatePosture threeRedCards).reason =
      "Only 3 of 12 indicators available. Need at least 8 for confident posture." ∧
    (calculatePosture threeRedCards).posture ≠ .SELL := by
  have h := calculatePosture_insufficient threeRedCards (by decide)
  refine ⟨h.1, ?_, ?_⟩
  · rw [h.2]
    decide
  · rw [h.1]
    decide

/-- C8: a slam-risk checklist of 5 items is marked elevated exactly when at
least 3 items are active, and the elevation flag is a pure function of the
active count (no per-item veto logic). -/
theorem slamRisk_elevated_iff (items : List SlamRiskItem) (h5 : items.length = 5) :
    (slamRiskIsElevated items = true ↔ 3 ≤ items.countP fun i => i.active) ∧
    ∀ items' : List SlamRiskItem,
      (items'.countP fun i => i.active) = (items.countP fun i => i.active) →
      slamRiskIsElevated items' = slamRiskIsElevated items := by
  constructor
  · simp [slamRiskIsElevated, slamRiskActiveCount, List.countP_eq_length_filter]
  · intro items' hcount
    simp only [slamRiskIsElevated, slamRiskActiveCount, ← List.countP_eq_length_filter, hcount]

/-- Concrete checklist with exactly 3 of 5 items active. -/
def slamItems3of5 : List SlamRiskItem :=
  [⟨"cot-short", "COT Short Build", true, some "Shorts up 1,000 contracts"⟩,
   ⟨"margin-hike", "Margin Hike", true, some "Recent margin hike detected"⟩,
   ⟨"oi-drop", "OI Drop (no news)", true, some "OI down 6.0%"⟩,
   ⟨"spread-widen", "Spread Widens", false, none⟩,
   ⟨"thin-liquidity", "Thin Liquidity", false, none⟩]

/-- Concrete checklist with exactly 2 of 5 items active. -/
def slamItems2of5 : List SlamRiskItem :=
  [⟨"cot-short", "COT Short Build", true, some "Shorts up 1,000 contracts"⟩,
   ⟨"margin-hike", "Margin Hike", true, some "Recent margin hike detected"⟩,
   ⟨"oi-drop", "OI Drop (no news)", false, none⟩,
   ⟨"spread-widen", "Spread Widens", false, none⟩,
   ⟨"thin-liquidity", "Thin Liquidity", false, none⟩]

/-- Witness for C8: exactly 3 of 5 active is elevated, 2 of 5 is not. -/
theorem slamRisk_elevated_iff_witness :
    (slamRiskIsElevated slamItems3of5 = true ↔ 3 ≤ slamItems3of5.countP fun i => i.active) ∧
    slamRiskIsElevated slamItems3of5 = true ∧
    slamRiskIsElevated slamItems2of5 = false :=
  ⟨(slamRisk_elevated_iff slamItems3of5 (by decide)).1, by decide, by decide⟩
